import Mathlib

/-!
Shallow embedding of the nativebackend e-commerce API (Node/Express/Mongoose)
and proofs about its documented behaviour.

JavaScript numbers are modelled as `ℚ`; Mongo ObjectIds are modelled as `Nat`
except where the code manipulates their string form (`toString`), where `String`
is used.  Each handler is embedded as a pure function from the relevant stored
documents (the request-scoped database state) and the request fields to an HTTP
status / result together with the database state after the handler completes.
-/

namespace NativeBackend

/-! ## Product model (src/models/Product.js) -/

/-- A product review subdocument (`productSchema.reviews`). -/
structure Review where
  user : Nat
  rating : ℚ
  comment : String
deriving Repr, DecidableEq

/-- Stock-change types (`quantityHistory.type` enum). -/
inductive StockType where
  | added
  | removed
  | sold
  | returned
deriving Repr, DecidableEq

/-- A `quantityHistory` entry. -/
structure StockEntry where
  type : StockType
  quantity : ℚ
  reason : String
deriving Repr, DecidableEq

/-- A product document; only the fields the verified routes touch are kept. -/
structure Product where
  id : Nat
  name : String
  price : ℚ
  stock : ℚ
  minOrderQuantity : ℚ
  maxOrderQuantity : ℚ
  rating : ℚ
  reviews : List Review
  quantityHistory : List StockEntry
deriving Repr, DecidableEq

/-- `productSchema.methods.calculateAverageRating`: sets `rating` to 0 when
there are no reviews and otherwise to the `reduce` sum of the review ratings
divided by their number; returns the updated document. -/
def calculateAverageRating (p : Product) : Product :=
  if p.reviews.length = 0 then
    { p with rating := 0 }
  else
    { p with rating := (p.reviews.foldl (fun acc review => acc + review.rating) 0) / (p.reviews.length : ℚ) }

/-- `productSchema.methods.updateStock`: for `removed`/`sold` throws
`Insufficient stock` when `stock < quantity`, otherwise decrements; for
`added`/`returned` increments; then pushes a history entry. -/
def updateStock (quantity : ℚ) (type : StockType) (reason : String) (p : Product) :
    Except String Product :=
  match type with
  | .removed | .sold =>
      if p.stock < quantity then
        .error "Insufficient stock"
      else
        .ok { p with
                stock := p.stock - quantity,
                quantityHistory := p.quantityHistory ++ [⟨type, quantity, reason⟩] }
  | .added | .returned =>
      .ok { p with
              stock := p.stock + quantity,
              quantityHistory := p.quantityHistory ++ [⟨type, quantity, reason⟩] }

/-- `productSchema.methods.isQuantityAvailable`. -/
def isQuantityAvailable (p : Product) (quantity : ℚ) : Bool :=
  decide (p.stock ≥ quantity) && decide (quantity ≥ p.minOrderQuantity) &&
    decide (quantity ≤ p.maxOrderQuantity)

/-- `productSchema.pre('save')`: silently raises `maxOrderQuantity` to
`minOrderQuantity` when the bounds are inverted. -/
def preSaveProduct (p : Product) : Product :=
  if p.maxOrderQuantity < p.minOrderQuantity then
    { p with maxOrderQuantity := p.minOrderQuantity }
  else
    p

/-- `PATCH /api/products/:id/stock` (src/routes/products.js): 404 when the
product is missing, otherwise runs `updateStock` and persists; a thrown
`Insufficient stock` becomes a 400. Returns the status with the database
after the handler. -/
def patchStockHandler (db : List Product) (pid : Nat) (quantity : ℚ) (type : StockType)
    (reason : String) : Nat × List Product :=
  match db.find? (fun p => p.id == pid) with
  | none => (404, db)
  | some p =>
      match updateStock quantity type reason p with
      | .error _ => (400, db)
      | .ok p' => (200, db.map (fun q => if q.id == pid then p' else q))

/-- `POST /api/products/:id/reviews` (src/routes/products.js): 404 when the
product is missing, otherwise pushes the review, recomputes the average
rating and saves, answering 201. -/
def addReviewHandler (db : List Product) (pid : Nat) (rev : Review) : Nat × List Product :=
  match db.find? (fun p => p.id == pid) with
  | none => (404, db)
  | some p =>
      let p' := calculateAverageRating { p with reviews := p.reviews ++ [rev] }
      (201, db.map (fun q => if q.id == pid then p' else q))

/-! ## Order model (src/models/Order.js) -/

/-- The order shipping-address snapshot. -/
structure ShippingAddress where
  street : String
  city : String
  state : String
  country : String
  zipCode : String
deriving Repr, DecidableEq

/-- A requested order line item as sent by the client (before the handler
copies the product price onto it). -/
structure OrderItemReq where
  product : Nat
  quantity : ℚ
deriving Repr, DecidableEq

/-- A priced order line item as stored on the order document. -/
structure OrderItem where
  product : Nat
  quantity : ℚ
  price : ℚ
deriving Repr, DecidableEq

/-- An order document (fields the verified routes touch). -/
structure Order where
  items : List OrderItem
  shippingAddress : ShippingAddress
  paymentMethod : String
  totalAmount : ℚ
deriving Repr, DecidableEq

/-- `orderSchema.pre('save')`: when the items path is modified, recompute
`totalAmount` as the `reduce` sum of `price * quantity`. -/
def preSaveOrder (itemsModified : Bool) (o : Order) : Order :=
  if itemsModified then
    { o with totalAmount := o.items.foldl (fun total item => total + item.price * item.quantity) 0 }
  else
    o

/-- The shipping-address validation of `POST /api/orders`: every field must be
truthy (a non-empty string). -/
def validShipping (a : ShippingAddress) : Bool :=
  !(a.street == "") && !(a.city == "") && !(a.state == "") && !(a.country == "") &&
    !(a.zipCode == "")

/-- The payment-method validation of `POST /api/orders`. -/
def validPayment (pm : String) : Bool :=
  pm == "card" || pm == "cash" || pm == "upi"

/-- The validation loop of `POST /api/orders`: walks the items in order,
answering 404 for the first missing product and 400 for the first product
with `stock < quantity`; on success each item gets the product price copied
onto it (`item.price = product.price`). -/
def priceItems (db : List Product) : List OrderItemReq → Except (Nat × String) (List OrderItem)
  | [] => .ok []
  | item :: rest =>
      match db.find? (fun p => p.id == item.product) with
      | none => .error (404, "Product not found")
      | some p =>
          if p.stock < item.quantity then
            .error (400, "Insufficient stock for " ++ p.name)
          else
            (priceItems db rest).map (fun priced =>
              { product := item.product, quantity := item.quantity, price := p.price } :: priced)

/-- A requested line item passes the `POST /api/orders` validation loop when
its product exists and has at least the requested stock. -/
def itemValid (db : List Product) (i : OrderItemReq) : Bool :=
  match db.find? (fun p => p.id == i.product) with
  | none => false
  | some p => !(decide (p.stock < i.quantity))

/-- One `findByIdAndUpdate(item.product, { $inc: { stock: -quantity } })`. -/
def decStock (db : List Product) (pid : Nat) (quantity : ℚ) : List Product :=
  db.map (fun p => if p.id == pid then { p with stock := p.stock - quantity } else p)

/-- The outcome of `POST /api/orders`. -/
inductive OrderResult where
  | created (o : Order)
  | failed (status : Nat) (msg : String)
deriving Repr, DecidableEq

/-- `POST /api/orders` (the orders router in src/routes/products.js): validate
the shipping address, the payment method, then every item (existence and
stock) before any write; on success decrement each item's stock and save the
order (whose pre-save hook recomputes the total, the items path being
modified on a new document). -/
def createOrder (db : List Product) (items : List OrderItemReq)
    (shippingAddress : ShippingAddress) (paymentMethod : String) :
    OrderResult × List Product :=
  if !(validShipping shippingAddress) then
    (.failed 400 "Shipping address must include street, city, state, country, and zipCode", db)
  else if !(validPayment paymentMethod) then
    (.failed 400 "Payment method must be one of: card, cash, upi", db)
  else
    match priceItems db items with
    | .error (status, msg) => (.failed status msg, db)
    | .ok priced =>
        let order :=
          { items := priced
            shippingAddress := shippingAddress
            paymentMethod := paymentMethod
            totalAmount := priced.foldl (fun total item => total + item.price * item.quantity) 0 }
        let db' := priced.foldl (fun d item => decStock d item.product item.quantity) db
        (.created (preSaveOrder true order), db')

/-! ## User model (src/models/User.js) and profile routes (src/routes/profile.js) -/

/-- An address subdocument of a user (`userSchema.addresses`). -/
structure Address where
  id : Nat
  street : String
  city : String
  state : String
  country : String
  zipCode : String
  longitude : ℚ
  latitude : ℚ
  isDefault : Bool
deriving Repr, DecidableEq

/-- A user document (fields the verified routes touch). -/
structure User where
  id : Nat
  name : String
  email : String
  password : String
  role : String
  isAdmin : Bool
  addresses : List Address
deriving Repr, DecidableEq

/-- `userSchema.pre('save')`: hash the password when it was modified (the hash
function itself is external `bcrypt`, passed as a parameter), then set
`isAdmin` from the role. -/
def preSaveUser (hash : String → String) (passwordModified : Bool) (u : User) : User :=
  let u' := if passwordModified then { u with password := hash u.password } else u
  { u' with isAdmin := u'.role == "admin" }

/-- The request body of `POST /api/profile/:_id/addresses`; a missing
`isDefault` is falsy, modelled as `false`. -/
structure AddressReq where
  street : String
  city : String
  state : String
  country : String
  zipCode : String
  longitude : ℚ
  latitude : ℚ
  isDefault : Bool
deriving Repr, DecidableEq

/-- `POST /api/profile/:_id/addresses`, after the user lookup and the
ownership check: validates the fields and coordinate ranges (400), then, when
the request asks for a default or the list is empty, clears every existing
default (`addresses.$[].isDefault = false`) and pushes the new address with
`isDefault = true`; otherwise pushes it as sent. `newId` stands for the
ObjectId Mongo assigns to the pushed subdocument. -/
def addAddress (u : User) (req : AddressReq) (newId : Nat) :
    Except (Nat × String) User :=
  if req.street == "" || req.city == "" || req.state == "" || req.country == "" ||
      req.zipCode == "" then
    .error (400, "All fields (street, city, state, country, zipCode, longitude, latitude) are required")
  else if req.longitude < -180 || req.longitude > 180 || req.latitude < -90 ||
      req.latitude > 90 then
    .error (400, "Invalid coordinate ranges. Longitude must be between -180 and 180, latitude between -90 and 90")
  else
    let newAddress : Address :=
      { id := newId
        street := req.street.trim
        city := req.city.trim
        state := req.state.trim
        country := req.country.trim
        zipCode := req.zipCode.trim
        longitude := req.longitude
        latitude := req.latitude
        isDefault := req.isDefault }
    if req.isDefault || u.addresses.isEmpty then
      .ok { u with
              addresses :=
                (u.addresses.map (fun a => { a with isDefault := false })) ++
                  [{ newAddress with isDefault := true }] }
    else
      .ok { u with addresses := u.addresses ++ [newAddress] }

/-- `DELETE /api/profile/:_id/addresses/:addressId`, after the user lookup and
the ownership check: 404 when no address has the id; otherwise the handler
mutates `remainingAddresses[0].isDefault = true` only on the in-memory
document (lines 348-353 of src/routes/profile.js) and never saves it — the
only write issued is `findByIdAndUpdate` with `$pull`, so the stored document
merely loses the pulled address, all remaining flags unchanged. -/
def deleteAddress (u : User) (addressId : Nat) : Except (Nat × String) User :=
  match u.addresses.find? (fun a => a.id == addressId) with
  | none => .error (404, "Address not found")
  | some _ =>
      .ok { u with addresses := u.addresses.filter (fun a => !(a.id == addressId)) }

/-! ## Message model (src/models/Message.js) and controller (src/controllers/messageController.js) -/

/-- A message document. Participant ids are kept in their `toString` form
because the code compares and sorts them as strings; `receiverId` is `none`
for broadcast messages. -/
structure Message where
  id : Nat
  senderId : String
  receiverId : Option String
  messageBody : String
  isRead : Bool
  messageType : String
deriving Repr, DecidableEq

/-- `messageSchema.virtual('conversationId')`: `broadcast` for broadcast
messages, otherwise the two participant ids sorted (JavaScript default
lexicographic array sort) and joined with `-`. A private message with a null
receiver makes `receiverId.toString()` throw, modelled as `none`. -/
def conversationId (m : Message) : Option String :=
  if m.messageType == "broadcast" then
    some "broadcast"
  else
    match m.receiverId with
    | none => none
    | some r =>
        some (if m.senderId ≤ r then m.senderId ++ "-" ++ r else r ++ "-" ++ m.senderId)

/-- `markMessageAsRead` (user initiated, src/controllers/messageController.js):
404 when the message is missing; then `message.receiverId.toString()` — a
`TypeError` on a null receiver, caught by the handler's catch and answered
with 500; 403 when the receiver is another user; 200 leaving the message
untouched when it is already read; otherwise sets `isRead` and saves. -/
def markMessageAsRead (db : List Message) (messageId : Nat) (userId : String) :
    Nat × List Message :=
  match db.find? (fun m => m.id == messageId) with
  | none => (404, db)
  | some m =>
      match m.receiverId with
      | none => (500, db)
      | some r =>
          if !(r == userId) then
            (403, db)
          else if m.isRead then
            (200, db)
          else
            (200, db.map (fun x => if x.id == messageId then { x with isRead := true } else x))

/-! ## Cart (src/models/Cart and src/controllers/cartController.js) -/

/-- A line of the repository's Cart model: `cartSchema.items` declares
subdocuments with a `product` reference and a `quantity`. -/
structure CartLine where
  product : Nat
  quantity : ℚ
deriving Repr, DecidableEq

/-- A document of the repository's Cart model — `mongoose.model('Cart',
cartSchema)`, the module the cart controller requires as `../models/Cart`: a
single `items` array and nothing else; there are no top-level `user`,
`product` or `quantity` paths. -/
structure CartDoc where
  items : List CartLine
deriving Repr, DecidableEq

/-- The top-level paths `cartSchema` declares: only the `items` array. -/
def cartSchemaTopLevelPaths : List String := ["items"]

/-- The top-level document paths `exports.addToCart` relies on for its
per-(user, product) cart line: it queries `findOne({ user, product })`,
accumulates with `cartItem.quantity += quantity`, and creates with
`new CartItem({ user, product, quantity })`. -/
def addToCartFieldPaths : List String := ["user", "product", "quantity"]

/-! ## Sample documents used by concrete witnesses -/

/-- A product with stock 5 used by the C2 witness. -/
def stockSampleProduct : Product :=
  ⟨1, "apple", 10, 5, 1, 10, 0, [], []⟩

/-- A one-product database used by the C5 witness. -/
def reviewSampleDb : List Product :=
  [⟨1, "apple", 10, 5, 1, 10, 5, [⟨3, 5, "nice"⟩], []⟩]

/-- A complete shipping address used by the C6 witness. -/
def sampleShipping : ShippingAddress :=
  ⟨"1 Farm Rd", "Pune", "MH", "IN", "411001"⟩

/-- The user document of the C3 failing input: two addresses, the first the
unique default. -/
def defaultSampleUser : User :=
  ⟨1, "u", "u@example.com", "secret", "user", false,
    [⟨1, "s", "c", "st", "co", "z", 0, 0, true⟩,
     ⟨2, "s2", "c2", "st2", "co2", "z2", 0, 0, false⟩]⟩

/-- A product with inverted order bounds used by the C9 witness. -/
def invertedSampleProduct : Product :=
  ⟨1, "pear", 10, 5, 4, 2, 0, [], []⟩

/-- The message database of the C4 counterexample: a single broadcast
message, whose `receiverId` is null. -/
def broadcastSampleDb : List Message :=
  [⟨1, "admin1", none, "hello all", false, "broadcast"⟩]

/-- The message database of the C4 witness: one unread private message to
`bob`. -/
def privateSampleDb : List Message :=
  [⟨1, "alice", some "bob", "hi", false, "private"⟩]

/-! ## Theorems -/

/-- A JavaScript `reduce`-style left fold of additions equals the sum of the
mapped list. -/
theorem foldl_add_eq_sum {α : Type} (f : α → ℚ) (l : List α) (a : ℚ) :
    l.foldl (fun acc x => acc + f x) a = a + (l.map f).sum := by
  induction l generalizing a with
  | nil => simp
  | cons x xs ih => simp [ih, add_assoc]

/-- C8: every save of a User document sets `isAdmin` to true if and only if
`role` equals `admin` (the pre-save hook recomputes `isAdmin` from the
unchanged role), so after any save the derived boolean admin flag mirrors the
role field. -/
theorem preSaveUser_isAdmin_mirrors_role (hash : String → String)
    (passwordModified : Bool) (u : User) :
    ((preSaveUser hash passwordModified u).isAdmin = true ↔
      (preSaveUser hash passwordModified u).role = "admin") ∧
    (preSaveUser hash passwordModified u).role = u.role := by
  unfold preSaveUser
  cases passwordModified <;> simp

/-- C9: the Product pre-save hook never rejects; it silently raises
`maxOrderQuantity` to `minOrderQuantity` when the bounds are inverted, so
every saved product has `minOrderQuantity ≤ maxOrderQuantity` and the order
bounds form a non-empty interval. -/
theorem preSaveProduct_bounds (p : Product) :
    (preSaveProduct p).minOrderQuantity ≤ (preSaveProduct p).maxOrderQuantity ∧
    (preSaveProduct p).minOrderQuantity = p.minOrderQuantity ∧
    (preSaveProduct p).maxOrderQuantity = max p.minOrderQuantity p.maxOrderQuantity ∧
    ∃ q : ℚ, (preSaveProduct p).minOrderQuantity ≤ q ∧
      q ≤ (preSaveProduct p).maxOrderQuantity := by
  unfold preSaveProduct
  split
  · next h =>
      exact ⟨le_refl _, rfl, (max_eq_left (le_of_lt h)).symm,
        p.minOrderQuantity, le_refl _, le_refl _⟩
  · next h =>
      have h' : p.minOrderQuantity ≤ p.maxOrderQuantity := le_of_not_lt h
      exact ⟨h', rfl, (max_eq_right h').symm, p.minOrderQuantity, le_refl _, h'⟩

/-- C2: `updateStock` with `sold`/`removed` fails with `Insufficient stock`
exactly when the stock is below the quantity, leaving the document untouched;
otherwise it decrements the stock by the quantity and appends one history
entry; with `added`/`returned` it increments and appends one entry; and a
non-negative stock stays non-negative for a non-negative quantity. -/
theorem updateStock_spec (p : Product) (q : ℚ) (reason : String) :
    (∀ t, (t = StockType.sold ∨ t = StockType.removed) →
      (p.stock < q → updateStock q t reason p = .error "Insufficient stock") ∧
      (¬ p.stock < q →
        updateStock q t reason p =
          .ok { p with stock := p.stock - q,
                       quantityHistory := p.quantityHistory ++ [⟨t, q, reason⟩] })) ∧
    (∀ t, (t = StockType.added ∨ t = StockType.returned) →
      updateStock q t reason p =
        .ok { p with stock := p.stock + q,
                     quantityHistory := p.quantityHistory ++ [⟨t, q, reason⟩] }) ∧
    (0 ≤ q → 0 ≤ p.stock →
      ∀ t p', updateStock q t reason p = .ok p' → 0 ≤ p'.stock) := by
  refine ⟨?_, ?_, ?_⟩
  · rintro t (rfl | rfl) <;>
      exact ⟨fun h => by simp [updateStock, h], fun h => by simp [updateStock, h]⟩
  · rintro t (rfl | rfl) <;> simp [updateStock]
  · intro hq hs t p' h
    cases t <;> simp only [updateStock] at h
    case added | returned =>
      cases h
      simpa using add_nonneg hs hq
    case removed | sold =>
      by_cases hlt : p.stock < q
      · simp [hlt] at h
      · simp [hlt] at h
        cases h.symm
        simpa using sub_nonneg.mpr (le_of_not_lt hlt)

/-- C2 witness: on a product with stock 5, selling 3 succeeds and decrements,
selling 7 fails with `Insufficient stock`, and returning 2 increments. -/
theorem updateStock_spec_witness :
    updateStock 3 .sold "" stockSampleProduct =
      .ok { stockSampleProduct with
              stock := stockSampleProduct.stock - 3,
              quantityHistory := stockSampleProduct.quantityHistory ++ [⟨.sold, 3, ""⟩] } ∧
    updateStock 7 .sold "" stockSampleProduct = .error "Insufficient stock" ∧
    updateStock 2 .returned "" stockSampleProduct =
      .ok { stockSampleProduct with
              stock := stockSampleProduct.stock + 2,
              quantityHistory := stockSampleProduct.quantityHistory ++ [⟨.returned, 2, ""⟩] } :=
  ⟨((updateStock_spec stockSampleProduct 3 "").1 .sold (Or.inl rfl)).2 (by decide),
   ((updateStock_spec stockSampleProduct 7 "").1 .sold (Or.inl rfl)).1 (by decide),
   (updateStock_spec stockSampleProduct 2 "").2.1 .returned (Or.inr rfl)⟩

/-- C7: the derived conversation key is `broadcast` for every broadcast
message; for a private message with non-null participants it is the two ids
sorted and joined with `-` (equivalently `min-max`), hence symmetric in the
two participants. -/
theorem conversationId_symmetric (id1 id2 : Nat) (s r body1 body2 : String)
    (read1 read2 : Bool) :
    (∀ (idb : Nat) (sb : String) (rb : Option String) (bodyb : String) (readb : Bool),
       conversationId ⟨idb, sb, rb, bodyb, readb, "broadcast"⟩ = some "broadcast") ∧
    conversationId ⟨id1, s, some r, body1, read1, "private"⟩ =
      some (min s r ++ "-" ++ max s r) ∧
    conversationId ⟨id1, s, some r, body1, read1, "private"⟩ =
      conversationId ⟨id2, r, some s, body2, read2, "private"⟩ := by
  refine ⟨fun idb sb rb bodyb readb => by simp [conversationId], ?_, ?_⟩
  · by_cases h : s ≤ r
    · simp [conversationId, h, min_eq_left h, max_eq_right h]
    · have h' : r ≤ s := le_of_not_le h
      simp [conversationId, h, min_eq_right h', max_eq_left h']
  · by_cases h : s ≤ r
    · by_cases h' : r ≤ s
      · have : s = r := le_antisymm h h'
        subst this
        simp [conversationId]
      · simp [conversationId, h, h']
    · have h' : r ≤ s := le_of_not_le h
      simp [conversationId, h, h']

/-- C8 witness: the pre-save hook at a concrete non-admin user. -/
theorem preSaveUser_isAdmin_mirrors_role_witness :
    ((preSaveUser id true defaultSampleUser).isAdmin = true ↔
      (preSaveUser id true defaultSampleUser).role = "admin") ∧
    (preSaveUser id true defaultSampleUser).role = defaultSampleUser.role :=
  preSaveUser_isAdmin_mirrors_role id true defaultSampleUser

/-- C9 witness: the pre-save hook at a concrete product whose
`maxOrderQuantity` is below its `minOrderQuantity`. -/
theorem preSaveProduct_bounds_witness :
    (preSaveProduct invertedSampleProduct).minOrderQuantity ≤
      (preSaveProduct invertedSampleProduct).maxOrderQuantity ∧
    (preSaveProduct invertedSampleProduct).minOrderQuantity =
      invertedSampleProduct.minOrderQuantity ∧
    (preSaveProduct invertedSampleProduct).maxOrderQuantity =
      max invertedSampleProduct.minOrderQuantity invertedSampleProduct.maxOrderQuantity ∧
    ∃ q : ℚ, (preSaveProduct invertedSampleProduct).minOrderQuantity ≤ q ∧
      q ≤ (preSaveProduct invertedSampleProduct).maxOrderQuantity :=
  preSaveProduct_bounds invertedSampleProduct

/-- C7 witness: two concrete private messages with swapped participants share
their conversation key. -/
theorem conversationId_symmetric_witness :
    conversationId ⟨1, "aaa", some "bbb", "hi", false, "private"⟩ =
      conversationId ⟨2, "bbb", some "aaa", "yo", true, "private"⟩ :=
  (conversationId_symmetric 1 2 "aaa" "bbb" "hi" "yo" false true).2.2

/-- C5: `calculateAverageRating` sets the rating to 0 on an empty review list
and to the arithmetic mean of the review ratings otherwise; consequently
`POST /api/products/:id/reviews` stores, for the found product, the review
list extended by the new review and a rating equal to the mean of all those
reviews. -/
theorem calculateAverageRating_mean (db : List Product) (pid : Nat) (rev : Review)
    (p : Product) :
    ((calculateAverageRating p).rating =
      if p.reviews.length = 0 then 0
      else (p.reviews.map Review.rating).sum / (p.reviews.length : ℚ)) ∧
    (db.find? (fun x => x.id == pid) = some p →
      addReviewHandler db pid rev =
        (201, db.map (fun x =>
          if x.id == pid then calculateAverageRating { p with reviews := p.reviews ++ [rev] }
          else x)) ∧
      (calculateAverageRating { p with reviews := p.reviews ++ [rev] }).reviews =
        p.reviews ++ [rev] ∧
      (calculateAverageRating { p with reviews := p.reviews ++ [rev] }).rating =
        ((p.reviews ++ [rev]).map Review.rating).sum / (((p.reviews ++ [rev]).length : ℚ))) := by
  have hne : ¬ (p.reviews ++ [rev]).length = 0 := by
    simp
  constructor
  · unfold calculateAverageRating
    split
    · next h => simp [h]
    · next h => simp [foldl_add_eq_sum Review.rating p.reviews 0]
  · intro hfind
    refine ⟨?_, ?_, ?_⟩
    · unfold addReviewHandler
      rw [hfind]
    · unfold calculateAverageRating
      simp [hne]
    · unfold calculateAverageRating
      simp only [hne, if_neg hne]
      simp [foldl_add_eq_sum Review.rating (p.reviews ++ [rev]) 0]

/-- C5 witness: adding a second five-star review to the sample product stores
the extended review list and the mean rating. -/
theorem calculateAverageRating_mean_witness :
    addReviewHandler reviewSampleDb 1 ⟨7, 4, "good"⟩ =
      (201, reviewSampleDb.map (fun x =>
        if x.id == 1 then
          calculateAverageRating
            { (⟨1, "apple", 10, 5, 1, 10, 5, [⟨3, 5, "nice"⟩], []⟩ : Product) with
                reviews := [⟨3, 5, "nice"⟩] ++ [⟨7, 4, "good"⟩] }
        else x)) ∧
    (calculateAverageRating
        { (⟨1, "apple", 10, 5, 1, 10, 5, [⟨3, 5, "nice"⟩], []⟩ : Product) with
            reviews := [⟨3, 5, "nice"⟩] ++ [⟨7, 4, "good"⟩] }).reviews =
      [⟨3, 5, "nice"⟩] ++ [⟨7, 4, "good"⟩] ∧
    (calculateAverageRating
        { (⟨1, "apple", 10, 5, 1, 10, 5, [⟨3, 5, "nice"⟩], []⟩ : Product) with
            reviews := [⟨3, 5, "nice"⟩] ++ [⟨7, 4, "good"⟩] }).rating =
      (([⟨3, 5, "nice"⟩, ⟨7, 4, "good"⟩] : List Review).map Review.rating).sum /
        ((([⟨3, 5, "nice"⟩, ⟨7, 4, "good"⟩] : List Review).length : ℚ)) :=
  (calculateAverageRating_mean reviewSampleDb 1 ⟨7, 4, "good"⟩
    ⟨1, "apple", 10, 5, 1, 10, 5, [⟨3, 5, "nice"⟩], []⟩).2 rfl

/-- C6: an order's `totalAmount` equals the sum over its line items of
`price * quantity`: the pre-save hook recomputes it whenever the items path
is modified (always on the new document a successful `POST /api/orders`
saves), and leaves an already-correct total correct otherwise. -/
theorem order_totalAmount_sum (o : Order) (m : Bool) (db : List Product)
    (items : List OrderItemReq) (addr : ShippingAddress) (pm : String) :
    ((preSaveOrder true o).totalAmount =
      ((preSaveOrder true o).items.map (fun i => i.price * i.quantity)).sum) ∧
    (o.totalAmount = (o.items.map (fun i => i.price * i.quantity)).sum →
      (preSaveOrder m o).totalAmount =
        ((preSaveOrder m o).items.map (fun i => i.price * i.quantity)).sum) ∧
    (∀ ord db', createOrder db items addr pm = (.created ord, db') →
      ord.totalAmount = (ord.items.map (fun i => i.price * i.quantity)).sum) := by
  have hook : ∀ o' : Order, (preSaveOrder true o').totalAmount =
      ((preSaveOrder true o').items.map (fun i => i.price * i.quantity)).sum := by
    intro o'
    unfold preSaveOrder
    simp [foldl_add_eq_sum (fun i : OrderItem => i.price * i.quantity) o'.items 0]
  refine ⟨hook o, ?_, ?_⟩
  · intro h
    cases m
    · simpa [preSaveOrder] using h
    · exact hook o
  · intro ord db' h
    unfold createOrder at h
    split at h
    · simp at h
    · split at h
      · simp at h
      · split at h
        · simp at h
        · next priced heq =>
            simp only [Prod.mk.injEq, OrderResult.created.injEq] at h
            rcases h with ⟨rfl, rfl⟩
            exact hook _

/-- C6 witness: the pre-save hook at a concrete order, and a concrete
successful empty-items order creation, both satisfy the total equation. -/
theorem order_totalAmount_sum_witness :
    (preSaveOrder false
        (⟨[], sampleShipping, "card", 0⟩ : Order)).totalAmount =
      ((preSaveOrder false (⟨[], sampleShipping, "card", 0⟩ : Order)).items.map
        (fun i => i.price * i.quantity)).sum ∧
    ((⟨[], sampleShipping, "card", 0⟩ : Order).totalAmount =
      ((⟨[], sampleShipping, "card", 0⟩ : Order).items.map
        (fun i => i.price * i.quantity)).sum) ∧
    createOrder [] [] sampleShipping "card" =
      (.created ⟨[], sampleShipping, "card", 0⟩, []) := by
  have h0 : ((⟨[], sampleShipping, "card", 0⟩ : Order).totalAmount =
      ((⟨[], sampleShipping, "card", 0⟩ : Order).items.map
        (fun i => i.price * i.quantity)).sum) := rfl
  have hcreate : createOrder [] [] sampleShipping "card" =
      (.created ⟨[], sampleShipping, "card", 0⟩, []) := by
    unfold createOrder sampleShipping validShipping validPayment priceItems preSaveOrder
    simp
  exact ⟨(order_totalAmount_sum (⟨[], sampleShipping, "card", 0⟩ : Order) false
      [] [] sampleShipping "card").2.1 h0, h0, hcreate⟩

/-- The `POST /api/orders` validation loop fails on the first invalid item,
with 404 for a missing product and 400 for insufficient stock. -/
theorem priceItems_error_of_invalid (db : List Product) :
    ∀ (items : List OrderItemReq) (i : OrderItemReq),
      items.find? (fun j => !(itemValid db j)) = some i →
      ∃ msg, priceItems db items =
        .error ((if (db.find? (fun p => p.id == i.product)).isNone then 404 else 400), msg) := by
  intro items
  induction items with
  | nil => intro i h; simp at h
  | cons j rest ih =>
      intro i h
      rw [List.find?_cons] at h
      by_cases hv : itemValid db j
      · simp only [hv, Bool.not_true] at h
        obtain ⟨msg, hmsg⟩ := ih i h
        refine ⟨msg, ?_⟩
        unfold itemValid at hv
        unfold priceItems
        rcases hfind : db.find? (fun p => p.id == j.product) with _ | p
        · rw [hfind] at hv; simp at hv
        · rw [hfind] at hv
          have hnotlt : ¬ (p.stock < j.quantity) := by simpa using hv
          simp only [hfind]
          rw [if_neg hnotlt, hmsg]
          rfl
      · simp only [Bool.not_eq_true] at hv
        simp only [hv, Bool.not_false] at h
        cases h
        unfold itemValid at hv
        unfold priceItems
        rcases hfind : db.find? (fun p => p.id == j.product) with _ | p
        · rw [hfind]
          exact ⟨"Product not found", by simp [hfind]⟩
        · rw [hfind] at hv
          have hlt : p.stock < j.quantity := by simpa using hv
          exact ⟨"Insufficient stock for " ++ p.name, by simp [hfind, hlt]⟩

/-- C1: when the shipping address and payment method are valid but some
requested item names a missing product or one with too little stock,
`POST /api/orders` fails — 404 when the first invalid item's product is
missing, 400 when its stock is insufficient — and the product database is
returned unchanged: no stock decrement happens and no order is created,
because every item is validated before any write. -/
theorem createOrder_validates_before_decrement (db : List Product)
    (items : List OrderItemReq) (addr : ShippingAddress) (pm : String)
    (i : OrderItemReq)
    (haddr : validShipping addr = true) (hpm : validPayment pm = true)
    (hbad : items.find? (fun j => !(itemValid db j)) = some i) :
    ∃ msg, createOrder db items addr pm =
      (.failed (if (db.find? (fun p => p.id == i.product)).isNone then 404 else 400) msg, db) := by
  obtain ⟨msg, hmsg⟩ := priceItems_error_of_invalid db items i hbad
  refine ⟨msg, ?_⟩
  unfold createOrder
  rw [haddr, hpm]
  simp only [Bool.not_true, Bool.false_eq_true, if_false]
  rw [hmsg]

/-- C1 witness: with one in-stock product, an order asking for a missing
product id fails with 404 and leaves the database untouched, and an order
asking for more than the stock fails with 400 and leaves it untouched. -/
theorem createOrder_validates_witness :
    (∃ msg, createOrder [⟨1, "apple", 10, 5, 1, 10, 0, [], []⟩] [⟨2, 1⟩] sampleShipping "card" =
      (.failed
        (if (([⟨1, "apple", 10, 5, 1, 10, 0, [], []⟩] : List Product).find?
            (fun p => p.id == (2 : Nat))).isNone then 404 else 400) msg,
        [⟨1, "apple", 10, 5, 1, 10, 0, [], []⟩])) ∧
    (∃ msg, createOrder [⟨1, "apple", 10, 5, 1, 10, 0, [], []⟩] [⟨1, 7⟩] sampleShipping "card" =
      (.failed
        (if (([⟨1, "apple", 10, 5, 1, 10, 0, [], []⟩] : List Product).find?
            (fun p => p.id == (1 : Nat))).isNone then 404 else 400) msg,
        [⟨1, "apple", 10, 5, 1, 10, 0, [], []⟩])) :=
  ⟨createOrder_validates_before_decrement [⟨1, "apple", 10, 5, 1, 10, 0, [], []⟩]
      [⟨2, 1⟩] sampleShipping "card" ⟨2, 1⟩ (by decide) (by decide) (by decide),
   createOrder_validates_before_decrement [⟨1, "apple", 10, 5, 1, 10, 0, [], []⟩]
      [⟨1, 7⟩] sampleShipping "card" ⟨1, 7⟩ (by decide) (by decide) (by decide)⟩

/-- C3 (code bug, evaluated at the failing input): deleting the unique
default address of a two-address user leaves the stored list non-empty with
zero defaults — the handler assigns the new default only on the in-memory
document and then issues a `$pull` without saving that assignment. -/
theorem deleteAddress_loses_unique_default :
    defaultSampleUser.addresses.countP (fun a => a.isDefault) = 1 ∧
    deleteAddress defaultSampleUser 1 =
      .ok { defaultSampleUser with
              addresses := [⟨2, "s2", "c2", "st2", "co2", "z2", 0, 0, false⟩] } ∧
    ([⟨2, "s2", "c2", "st2", "co2", "z2", 0, 0, false⟩] : List Address) ≠ [] ∧
    ([⟨2, "s2", "c2", "st2", "co2", "z2", 0, 0, false⟩] : List Address).countP
      (fun a => a.isDefault) = 0 :=
  ⟨rfl, rfl, by simp, rfl⟩

/-- C4 counterexample: an existing broadcast message has a null receiver, so
it is not received by the requesting user, yet `PUT /api/messages/:id/read`
answers 500 (the handler's `receiverId.toString()` throws), not 403. -/
theorem markMessageAsRead_broadcast_not_403 :
    broadcastSampleDb.find? (fun m => m.id == 1) =
      some ⟨1, "admin1", none, "hello all", false, "broadcast"⟩ ∧
    markMessageAsRead broadcastSampleDb 1 "bob" = (500, broadcastSampleDb) ∧
    (markMessageAsRead broadcastSampleDb 1 "bob").1 ≠ 403 :=
  ⟨rfl, rfl, by decide⟩

/-- C4 (amended): `PUT /api/messages/:messageId/read` answers 404 when no
message has the id; 500 for an existing message with a null receiver (the
handler throws on `receiverId.toString()`); 403 for an existing message whose
non-null receiver is another user; and otherwise 200, setting `isRead` unless
the message was already read, in which case it is left unchanged. -/
theorem markMessageAsRead_spec (db : List Message) (mid : Nat) (uid : String) :
    (db.find? (fun m => m.id == mid) = none → markMessageAsRead db mid uid = (404, db)) ∧
    (∀ m, db.find? (fun x => x.id == mid) = some m →
      (m.receiverId = none → markMessageAsRead db mid uid = (500, db)) ∧
      (∀ r, m.receiverId = some r → r ≠ uid → markMessageAsRead db mid uid = (403, db)) ∧
      (m.receiverId = some uid → m.isRead = true → markMessageAsRead db mid uid = (200, db)) ∧
      (m.receiverId = some uid → m.isRead = false →
        markMessageAsRead db mid uid =
          (200, db.map (fun x => if x.id == mid then { x with isRead := true } else x)))) := by
  constructor
  · intro h
    simp [markMessageAsRead, h]
  · intro m hm
    refine ⟨?_, ?_, ?_, ?_⟩
    · intro hr
      simp [markMessageAsRead, hm, hr]
    · intro r hr hne
      have hbe : (r == uid) = false := beq_eq_false_iff_ne.mpr hne
      simp [markMessageAsRead, hm, hr, hbe]
    · intro hr hread
      simp [markMessageAsRead, hm, hr, hread]
    · intro hr hread
      simp [markMessageAsRead, hm, hr, hread]

/-- C4 witness: the receiver of an unread private message marks it as read
and gets a 200 with the updated message. -/
theorem markMessageAsRead_spec_witness :
    markMessageAsRead privateSampleDb 1 "bob" =
      (200, privateSampleDb.map (fun x => if x.id == 1 then { x with isRead := true } else x)) :=
  ((markMessageAsRead_spec privateSampleDb 1 "bob").2
      ⟨1, "alice", some "bob", "hi", false, "private"⟩ rfl).2.2.2 rfl rfl

/-- C10 (code bug): every top-level field the cart controller uses for its
per-(user, product) cart line — queried in `findOne({ user, product })`,
accumulated by `cartItem.quantity += quantity`, stored by
`new CartItem({ user, product, quantity })` — is absent from the schema of
the Cart model the controller requires, whose only declared top-level path is
the `items` array; Mongoose's default strict mode drops writes to undeclared
paths, so no stored cart item for the pair can ever accumulate `q1 + q2` as
the claim asserts. -/
theorem addToCart_fields_not_in_cartSchema :
    ("user" ∈ addToCartFieldPaths ∧ "user" ∉ cartSchemaTopLevelPaths) ∧
    ("product" ∈ addToCartFieldPaths ∧ "product" ∉ cartSchemaTopLevelPaths) ∧
    ("quantity" ∈ addToCartFieldPaths ∧ "quantity" ∉ cartSchemaTopLevelPaths) := by
  decide

end NativeBackend
